import Mathlib

/-!
Verification of the filter-aggregate dashboard (src/dashboard.py).

The embedding models the two components of the program:

* the dataset preparer (lines 9-22): derives the `Hour_Group` column from the
  `Hour` column (adding `Hour` from `Start_Time` when absent) and, when the
  `Precipitation(in)` column exists, the `Precipitation_Bin` column;
* the filter-aggregate pipeline `update_dashboard` (lines 98-158): filters the
  prepared rows by the three optional selections and computes the aggregate
  outputs consumed by the rendering layer.

Machine reals are modelled as exact rationals; a missing (NaN) cell is `none`.
A computation that pandas would abort with an exception (KeyError on a missing
column, ValueError from idxmax of an empty sequence) is modelled with
`Except String`.
-/

/-- One row of the raw CSV.  `startHour` is the hour extracted from
`Start_Time` (line 13, `none` when the timestamp is missing); `hourField` is
the value of a raw `Hour` column (meaningful only when the table has one);
`precip` is the `Precipitation(in)` cell (`none` = NaN, meaningful only when
the table has that column). -/
structure RawRow where
  state : String
  city : String
  severity : Int
  startHour : Option Int
  hourField : Option Int
  precip : Option ℚ
  lat : ℚ
  lng : ℚ
deriving DecidableEq

/-- The raw table: its rows plus which of the two optional columns exist
(lines 12 and 19 test for them). -/
structure RawTable where
  rows : List RawRow
  hasHour : Bool
  hasPrecip : Bool
deriving DecidableEq

/-- pd.cut of the hour with bins [-1, 5, 11, 17, 23] (lines 14-16): a value in
(-1,5] is Night, (5,11] Morning, (11,17] Afternoon, (17,23] Evening; anything
else (missing included) gets the NaN bucket `none`. -/
def hourCut (h : Option Int) : Option String :=
  match h with
  | none => none
  | some v =>
    if -1 < v ∧ v ≤ 5 then some "Night"
    else if 5 < v ∧ v ≤ 11 then some "Morning"
    else if 11 < v ∧ v ≤ 17 then some "Afternoon"
    else if 17 < v ∧ v ≤ 23 then some "Evening"
    else none

/-- pd.cut of the precipitation amount with bins
[-0.01, 0.01, 0.1, 0.5, 1, 5, 50] (lines 20-22). -/
def precipCut (p : Option ℚ) : Option String :=
  match p with
  | none => none
  | some v =>
    if -0.01 < v ∧ v ≤ 0.01 then some "None"
    else if 0.01 < v ∧ v ≤ 0.1 then some "Trace"
    else if 0.1 < v ∧ v ≤ 0.5 then some "Light"
    else if 0.5 < v ∧ v ≤ 1 then some "Moderate"
    else if 1 < v ∧ v ≤ 5 then some "Heavy"
    else if 5 < v ∧ v ≤ 50 then some "Extreme"
    else none

/-- A prepared row: the raw cells plus the `Hour` column (derived from
`Start_Time` when the raw table had no `Hour` column) and the two derived
categorical columns. -/
structure PRow where
  state : String
  city : String
  severity : Int
  hour : Option Int
  precip : Option ℚ
  lat : ℚ
  lng : ℚ
  hourGroup : Option String
  precipBin : Option String
deriving DecidableEq

/-- The prepared dataset held in process memory: the prepared rows and whether
the `Precipitation(in)` column (and hence `Precipitation_Bin`) exists. -/
structure PreparedDataset where
  rows : List PRow
  hasPrecip : Bool
deriving DecidableEq

/-- Dataset preparation (lines 9-22): add `Hour` when the raw table lacks it
(line 13), always add `Hour_Group` (lines 14-16) and, only when the
precipitation column exists, `Precipitation_Bin` (lines 19-22). -/
def prepare (t : RawTable) : PreparedDataset :=
  { rows := t.rows.map fun r =>
      let h := if t.hasHour then r.hourField else r.startHour
      { state := r.state
        city := r.city
        severity := r.severity
        hour := h
        precip := r.precip
        lat := r.lat
        lng := r.lng
        hourGroup := hourCut h
        precipBin := if t.hasPrecip then precipCut r.precip else none }
    hasPrecip := t.hasPrecip }

/-- The column names of the raw table, in CSV order. -/
def rawColumns (t : RawTable) : List String :=
  ["State", "City", "Severity", "Start_Time", "Start_Lat", "Start_Lng"]
    ++ (if t.hasHour then ["Hour"] else [])
    ++ (if t.hasPrecip then ["Precipitation(in)"] else [])

/-- The column names after preparation: pandas appends each assigned column at
the end, so `Hour` (when newly created, line 13) comes first, then
`Hour_Group` (line 14), then `Precipitation_Bin` when the precipitation
column exists (line 20). -/
def preparedColumns (t : RawTable) : List String :=
  rawColumns t
    ++ (if t.hasHour then [] else ["Hour"])
    ++ ["Hour_Group"]
    ++ (if t.hasPrecip then ["Precipitation_Bin"] else [])

/-- Truthiness of a Dash multi-dropdown value: `None` and the empty list are
falsy, so `if selected_states:` (lines 101/103/105) skips the filter. -/
def activeSel : Option (List String) → Bool
  | none => false
  | some l => !l.isEmpty

/-- The selected values of a dimension (empty when the selection is absent). -/
def listOf : Option (List String) → List String
  | none => []
  | some l => l

/-- `astype(str)` of a `Precipitation_Bin` cell (line 106): a label stays
itself, the NaN bucket prints as "nan". -/
def precipStr : Option String → String
  | some l => l
  | none => "nan"

/-- Membership constraint of the state dimension (line 102); inactive
selections impose no constraint. -/
def matchState (ss : Option (List String)) (r : PRow) : Bool :=
  if activeSel ss then (listOf ss).contains r.state else true

/-- Membership constraint of the hour-group dimension (line 104): `isin` on
the categorical column, the NaN bucket matching nothing. -/
def matchHour (hs : Option (List String)) (r : PRow) : Bool :=
  if activeSel hs then
    match r.hourGroup with
    | some g => (listOf hs).contains g
    | none => false
  else true

/-- Membership constraint of the precipitation dimension (line 106): the
bucket is compared through its textual form, so the NaN bucket has the
text "nan". -/
def matchPrecip (ps : Option (List String)) (r : PRow) : Bool :=
  if activeSel ps then (listOf ps).contains (precipStr r.precipBin) else true

/-- Conjunction of the three per-dimension membership constraints. -/
def rowMatches (ss hs ps : Option (List String)) (r : PRow) : Bool :=
  matchState ss r && matchHour hs r && matchPrecip ps r

/-- The filter phase (lines 99-106).  The state and hour-group filters always
succeed; the precipitation filter reads the `Precipitation_Bin` column, which
does not exist when the raw data had no precipitation column, so pandas
raises a KeyError there. -/
def filterRows (ds : PreparedDataset) (ss hs ps : Option (List String)) :
    Except String (List PRow) :=
  let r1 := if activeSel ss then
      ds.rows.filter (fun r => (listOf ss).contains r.state)
    else ds.rows
  let r2 := if activeSel hs then
      r1.filter (fun r =>
        match r.hourGroup with
        | some g => (listOf hs).contains g
        | none => false)
    else r1
  if activeSel ps then
    if ds.hasPrecip then
      .ok (r2.filter (fun r => (listOf ps).contains (precipStr r.precipBin)))
    else .error "KeyError: Precipitation_Bin"
  else .ok r2

/-- Stable insertion step of a descending-by-count sort: the new element goes
in front of the first element whose count it reaches, hence before
equal-count elements already placed later in the original list. -/
def insDesc {α : Type} (x : α × ℕ) : List (α × ℕ) → List (α × ℕ)
  | [] => [x]
  | y :: ys => if y.2 ≤ x.2 then x :: y :: ys else y :: insDesc x ys

/-- Sort by count, descending (models `sort_values(ascending=False)` of line
142 and the descending ordering of `value_counts`).  pandas's default sort
kind (quicksort) leaves the order of equal counts unspecified; an executable
model has to pick some concrete order, and this one inserts stably.  That
choice is not a guarantee of the program, and no theorem below depends on the
relative order of equal counts - only on the counts being non-increasing,
which `sort_values` does guarantee. -/
def sortDesc {α : Type} : List (α × ℕ) → List (α × ℕ)
  | [] => []
  | x :: xs => insDesc x (sortDesc xs)

/-- Code-point comparison of strings, the order pandas sorts object keys by. -/
def chLe : List Char → List Char → Bool
  | [], _ => true
  | _ :: _, [] => false
  | a :: as, b :: bs =>
    if a.val < b.val then true
    else if b.val < a.val then false
    else chLe as bs

/-- Insertion step of the ascending string sort used for groupby keys. -/
def insAsc (x : String) : List String → List String
  | [] => [x]
  | y :: ys => if chLe x.data y.data then x :: y :: ys else y :: insAsc x ys

/-- Ascending sort of strings (groupby sorts its keys, line 142). -/
def sortStr : List String → List String
  | [] => []
  | x :: xs => insAsc x (sortStr xs)

/-- Distinct values with their multiplicities. -/
def countsOf {α : Type} [DecidableEq α] (l : List α) : List (α × ℕ) :=
  l.dedup.map fun v => (v, l.count v)

/-- `Severity.mode()[0]` (line 110): pandas mode lists the most frequent
values in ascending order, so index 0 is the least value of maximal count. -/
def severityMode (l : List Int) : Option Int :=
  let cs := countsOf l
  let m := cs.foldl (fun acc p => max acc p.2) 0
  match (cs.filter (fun p => p.2 = m)).map (fun p => p.1) with
  | [] => none
  | x :: xs => some (xs.foldl min x)

/-- `Series.mean()` with NaN values already removed: the NaN result of an
empty mean is `none`. -/
def meanOpt (l : List ℚ) : Option ℚ :=
  if l.isEmpty then none else some (l.sum / l.length)

/-- Severity `value_counts(normalize=True) * 100` (line 122): distinct
severities with their percentage shares, most frequent first. -/
def sevDistCalc (rows : List PRow) : List (Int × ℚ) :=
  let sevs := rows.map fun r => r.severity
  (sortDesc (countsOf sevs)).map fun p => (p.1, (p.2 : ℚ) / (sevs.length : ℚ) * 100)

/-- The four `Hour_Group` category labels, in category order. -/
def hourLabels : List String := ["Night", "Morning", "Afternoon", "Evening"]

/-- The six `Precipitation_Bin` category labels, in category order. -/
def precipLabels : List String :=
  ["None", "Trace", "Light", "Moderate", "Heavy", "Extreme"]

/-- `groupby(col, observed=True).size()` on a categorical column (lines 131
and 137): observed categories in category order, empty groups omitted. -/
def groupCounts (labels : List String) (f : PRow → Option String)
    (rows : List PRow) : List (String × ℕ) :=
  (labels.map fun l => (l, rows.countP (fun r => f r = some l))).filter
    fun q => 0 < q.2

/-- `Hour_Group.value_counts()` (line 111): a categorical keeps every
category, zero counts included, sorted by count descending. -/
def hourValueCounts (rows : List PRow) : List (String × ℕ) :=
  sortDesc (hourLabels.map fun l => (l, rows.countP (fun r => r.hourGroup = some l)))

/-- `Series.idxmax()`: the first index attaining the maximal value; pandas
raises a ValueError on an empty series. -/
def idxmaxAux {α : Type} (best : α × ℕ) : List (α × ℕ) → α
  | [] => best.1
  | x :: xs => if best.2 < x.2 then idxmaxAux x xs else idxmaxAux best xs

/-- First index of the maximal value, `none` for the empty series. -/
def idxmax {α : Type} : List (α × ℕ) → Option α
  | [] => none
  | x :: xs => some (idxmaxAux x xs)

/-- Line 111: `value_counts().idxmax() if total_accidents > 0 else "N/A"`;
the "N/A" marker is `none`, the ValueError branch of idxmax is an error. -/
def busiestCalc (rows : List PRow) : Except String (Option String) :=
  if 0 < rows.length then
    match idxmax (hourValueCounts rows) with
    | some g => .ok (some g)
    | none => .error "ValueError: attempt to get argmax of an empty sequence"
  else .ok none

/-- `groupby("State").size()` (line 142): distinct states in ascending order
with their counts. -/
def stateCounts (rows : List PRow) : List (String × ℕ) :=
  (sortStr (rows.map fun r => r.state).dedup).map fun s =>
    (s, rows.countP (fun r => r.state = s))

/-- The aggregate result consumed by the rendering layer.  `none` in
`most_common_severity` / `busiest_hour_group` is the "N/A" marker; `none` in
`avg_precip` is the NaN produced by an empty mean. -/
structure AggResult where
  total_accidents : ℕ
  most_common_severity : Option Int
  busiest_hour_group : Option String
  avg_precip : Option ℚ
  severity_counts : List (Int × ℚ)
  accidents_by_hour : List (String × ℕ)
  accidents_by_precip : List (String × ℕ)
  accidents_by_state : List (String × ℕ)
  map_rows : List PRow
deriving DecidableEq

/-- The aggregate outputs of lines 109-158 for a filtered row set (reached
only when the precipitation column exists, since line 137 needs it). -/
def mkResult (ds : PreparedDataset) (rows : List PRow) (busiest : Option String) :
    AggResult :=
  { total_accidents := rows.length
    most_common_severity :=
      if 0 < rows.length then severityMode (rows.map fun r => r.severity) else none
    busiest_hour_group := busiest
    avg_precip :=
      if ds.hasPrecip then meanOpt (rows.filterMap fun r => r.precip) else some 0
    severity_counts := sevDistCalc rows
    accidents_by_hour := groupCounts hourLabels (fun r => r.hourGroup) rows
    accidents_by_precip := groupCounts precipLabels (fun r => r.precipBin) rows
    accidents_by_state := (sortDesc (stateCounts rows)).take 10
    map_rows := rows }

/-- The reactive callback `update_dashboard` (lines 98-158): filter, then
compute the aggregates in source order.  The two failure points are the
precipitation filter (line 106) and the grouping by `Precipitation_Bin`
(line 137), both KeyErrors when that column does not exist, and the idxmax
of line 111. -/
def update_dashboard (ds : PreparedDataset) (ss hs ps : Option (List String)) :
    Except String AggResult :=
  match filterRows ds ss hs ps with
  | .error e => .error e
  | .ok rows =>
    match busiestCalc rows with
    | .error e => .error e
    | .ok busiest =>
      if ds.hasPrecip then .ok (mkResult ds rows busiest)
      else .error "KeyError: Precipitation_Bin"

/-- A default aggregate value, used only to name the result of a successful
concrete pipeline invocation. -/
def emptyAgg : AggResult :=
  { total_accidents := 0
    most_common_severity := none
    busiest_hour_group := none
    avg_precip := none
    severity_counts := []
    accidents_by_hour := []
    accidents_by_precip := []
    accidents_by_state := []
    map_rows := [] }

/-- The three-row scenario dataset of the specification: CA/severity 2/hour
3/precip 0.0, CA/severity 3/hour 14/precip 0.2, NY/severity 2/hour
14/missing precip.  The raw table has `Start_Time` but no `Hour` column. -/
def scenarioRaw : RawTable :=
  { rows :=
      [ { state := "CA", city := "Fresno", severity := 2, startHour := some 3,
          hourField := none, precip := some 0, lat := 36, lng := -119 }
      , { state := "CA", city := "Fresno", severity := 3, startHour := some 14,
          hourField := none, precip := some 0.2, lat := 36, lng := -119 }
      , { state := "NY", city := "Albany", severity := 2, startHour := some 14,
          hourField := none, precip := none, lat := 42, lng := -73 } ]
    hasHour := false
    hasPrecip := true }

/-- The prepared scenario dataset. -/
def scenarioDS : PreparedDataset := prepare scenarioRaw

/-- A raw table without the `Precipitation(in)` column. -/
def noPrecipRaw : RawTable :=
  { rows :=
      [ { state := "CA", city := "Fresno", severity := 2, startHour := some 3,
          hourField := none, precip := none, lat := 36, lng := -119 } ]
    hasHour := false
    hasPrecip := false }

/-- The prepared precipitation-less dataset. -/
def noPrecipDS : PreparedDataset := prepare noPrecipRaw

/-- A dataset whose single row has no hour, hence an undefined Hour_Group. -/
def hourlessRaw : RawTable :=
  { rows :=
      [ { state := "CA", city := "Fresno", severity := 2, startHour := none,
          hourField := none, precip := some 0, lat := 36, lng := -119 } ]
    hasHour := false
    hasPrecip := true }

/-- The prepared hourless dataset. -/
def hourlessDS : PreparedDataset := prepare hourlessRaw

theorem filterRows_ok {ds : PreparedDataset} {ss hs ps : Option (List String)}
    {rows : List PRow} (h : filterRows ds ss hs ps = .ok rows) :
    rows = ds.rows.filter (fun row => rowMatches ss hs ps row) := by
  unfold filterRows at h
  by_cases hss : activeSel ss <;> by_cases hhs : activeSel hs <;>
    by_cases hps : activeSel ps <;> by_cases hp : ds.hasPrecip <;>
      simp only [hss, hhs, hps, hp, if_true, if_false, Bool.not_eq_true,
        ite_true, ite_false, reduceCtorEq, Except.ok.injEq] at h <;>
    subst h <;>
    simp [rowMatches, matchState, matchHour, matchPrecip, hss, hhs, hps,
      List.filter_filter, Bool.and_assoc, Bool.and_comm, Bool.and_left_comm]

theorem run_ok_elim {ds : PreparedDataset} {ss hs ps : Option (List String)}
    {r : AggResult} (h : update_dashboard ds ss hs ps = .ok r) :
    ∃ rows b, filterRows ds ss hs ps = .ok rows ∧ busiestCalc rows = .ok b ∧
      ds.hasPrecip = true ∧ r = mkResult ds rows b := by
  unfold update_dashboard at h
  cases hf : filterRows ds ss hs ps with
  | error e => simp [hf] at h
  | ok rows =>
    cases hb : busiestCalc rows with
    | error e => simp [hf, hb] at h
    | ok b =>
      by_cases hp : ds.hasPrecip
      · simp only [hf, hb, hp, if_true, Except.ok.injEq] at h
        exact ⟨rows, b, rfl, hb, hp, h.symm⟩
      · simp [hf, hb, hp] at h

theorem length_insDesc {α : Type} (x : α × ℕ) (l : List (α × ℕ)) :
    (insDesc x l).length = l.length + 1 := by
  induction l with
  | nil => rfl
  | cons y ys ih =>
    unfold insDesc
    by_cases h : y.2 ≤ x.2 <;> simp [h, ih]

theorem length_sortDesc {α : Type} (l : List (α × ℕ)) :
    (sortDesc l).length = l.length := by
  induction l with
  | nil => rfl
  | cons x xs ih => simp [sortDesc, length_insDesc, ih]

theorem mem_insDesc {α : Type} {z x : α × ℕ} {l : List (α × ℕ)} :
    z ∈ insDesc x l ↔ z = x ∨ z ∈ l := by
  induction l with
  | nil => simp [insDesc]
  | cons y ys ih =>
    unfold insDesc
    by_cases h : y.2 ≤ x.2
    · simp [h, ih]
      try tauto
    · simp [h, ih]
      try tauto

theorem sorted_insDesc {α : Type} {x : α × ℕ} {l : List (α × ℕ)}
    (hl : l.Pairwise (fun a b => b.2 ≤ a.2)) :
    (insDesc x l).Pairwise (fun a b => b.2 ≤ a.2) := by
  induction l with
  | nil => simp [insDesc]
  | cons y ys ih =>
    unfold insDesc
    rcases List.pairwise_cons.mp hl with ⟨hy, hys⟩
    by_cases h : y.2 ≤ x.2
    · simp only [h, if_true]
      refine List.pairwise_cons.mpr ⟨?_, hl⟩
      intro z hz
      rcases List.mem_cons.mp hz with hz | hz
      · simpa [hz] using h
      · exact le_trans (hy z hz) h
    · simp only [h, if_false]
      refine List.pairwise_cons.mpr ⟨?_, ih hys⟩
      intro z hz
      rcases mem_insDesc.mp hz with hz | hz
      · subst hz; omega
      · exact hy z hz

theorem sorted_sortDesc {α : Type} (l : List (α × ℕ)) :
    (sortDesc l).Pairwise (fun a b => b.2 ≤ a.2) := by
  induction l with
  | nil => simp [sortDesc]
  | cons x xs ih => exact sorted_insDesc ih

theorem length_insAsc (x : String) (l : List String) :
    (insAsc x l).length = l.length + 1 := by
  induction l with
  | nil => rfl
  | cons y ys ih =>
    unfold insAsc
    by_cases h : chLe x.data y.data <;> simp [h, ih]

theorem length_sortStr (l : List String) : (sortStr l).length = l.length := by
  induction l with
  | nil => rfl
  | cons x xs ih => simp [sortStr, length_insAsc, ih]

theorem countP_mono_of_imp {α : Type} {p q : α → Bool} :
    ∀ l : List α, (∀ x ∈ l, p x = true → q x = true) → l.countP p ≤ l.countP q := by
  intro l
  induction l with
  | nil => intro _; simp
  | cons x xs ih =>
    intro h
    have hx := h x (List.mem_cons_self x xs)
    have hxs : ∀ y ∈ xs, p y = true → q y = true :=
      fun y hy => h y (List.mem_cons_of_mem x hy)
    have hih := ih hxs
    rw [List.countP_cons, List.countP_cons]
    by_cases hp : p x = true
    · rw [if_pos hp, if_pos (hx hp)]
      omega
    · rw [if_neg hp]
      by_cases hq : q x = true
      · rw [if_pos hq]; omega
      · rw [if_neg hq]; omega

theorem groupCounts_nil (labels : List String) (f : PRow → Option String) :
    groupCounts labels f [] = [] := by
  induction labels with
  | nil => rfl
  | cons l ls ih => simp [groupCounts, List.filter_cons]

theorem mem_groupCounts_pos {labels : List String} {f : PRow → Option String}
    {rows : List PRow} {q : String × ℕ} (h : q ∈ groupCounts labels f rows) :
    1 ≤ q.2 := by
  unfold groupCounts at h
  have := (List.mem_filter.mp h).2
  simpa [Nat.succ_le_iff] using this

theorem idxmax_of_ne_nil {α : Type} {l : List (α × ℕ)} (h : l ≠ []) :
    ∃ g, idxmax l = some g := by
  cases l with
  | nil => exact absurd rfl h
  | cons x xs => exact ⟨idxmaxAux x xs, rfl⟩

theorem busiestCalc_total_zero {rows : List PRow} {b : Option String}
    (hb : busiestCalc rows = .ok b) (h0 : rows.length = 0) : b = none := by
  unfold busiestCalc at hb
  rw [h0] at hb
  simp at hb
  exact hb.symm

theorem total_eq_countP {ds : PreparedDataset} {ss hs ps : Option (List String)}
    {r : AggResult} (h : update_dashboard ds ss hs ps = .ok r) :
    r.total_accidents = ds.rows.countP (fun row => rowMatches ss hs ps row) := by
  obtain ⟨rows, b, hf, hb, hp, hr⟩ := run_ok_elim h
  subst hr
  have hrows := filterRows_ok hf
  simp [mkResult, hrows, List.countP_eq_length_filter]

theorem hourValueCounts_ne_nil (rows : List PRow) : hourValueCounts rows ≠ [] := by
  have hlen : (hourValueCounts rows).length = 4 := by
    simp [hourValueCounts, length_sortDesc, hourLabels]
  intro hnil
  rw [hnil] at hlen
  simp at hlen

/-- Selection strengthening, per dimension: an active selection stays active
with a subset of its values; an absent (or empty) one may become anything. -/
def strongerDim (s₂ s₁ : Option (List String)) : Prop :=
  activeSel s₁ = true → (activeSel s₂ = true ∧ ∀ x ∈ listOf s₂, x ∈ listOf s₁)

theorem matchState_mono {s₂ s₁ : Option (List String)} {r : PRow}
    (hst : strongerDim s₂ s₁) (h : matchState s₂ r = true) :
    matchState s₁ r = true := by
  unfold matchState at h ⊢
  by_cases h1 : activeSel s₁ = true
  · obtain ⟨h2, hsub⟩ := hst h1
    rw [if_pos h2] at h
    rw [if_pos h1]
    have hm : r.state ∈ listOf s₂ := by simpa using h
    simpa using hsub _ hm
  · simp [h1]

theorem matchHour_mono {s₂ s₁ : Option (List String)} {r : PRow}
    (hst : strongerDim s₂ s₁) (h : matchHour s₂ r = true) :
    matchHour s₁ r = true := by
  unfold matchHour at h ⊢
  by_cases h1 : activeSel s₁ = true
  · obtain ⟨h2, hsub⟩ := hst h1
    rw [if_pos h2] at h
    rw [if_pos h1]
    cases hg : r.hourGroup with
    | none => rw [hg] at h; exact absurd h (by simp)
    | some g =>
      rw [hg] at h
      have hm : g ∈ listOf s₂ := by simpa using h
      simpa using hsub _ hm
  · simp [h1]

theorem matchPrecip_mono {s₂ s₁ : Option (List String)} {r : PRow}
    (hst : strongerDim s₂ s₁) (h : matchPrecip s₂ r = true) :
    matchPrecip s₁ r = true := by
  unfold matchPrecip at h ⊢
  by_cases h1 : activeSel s₁ = true
  · obtain ⟨h2, hsub⟩ := hst h1
    rw [if_pos h2] at h
    rw [if_pos h1]
    have hm : precipStr r.precipBin ∈ listOf s₂ := by simpa using h
    simpa using hsub _ hm
  · simp [h1]

theorem rowMatches_mono {s₂ h₂ p₂ s₁ h₁ p₁ : Option (List String)} {r : PRow}
    (hs : strongerDim s₂ s₁) (hh : strongerDim h₂ h₁) (hp : strongerDim p₂ p₁)
    (h : rowMatches s₂ h₂ p₂ r = true) : rowMatches s₁ h₁ p₁ r = true := by
  unfold rowMatches at h ⊢
  rcases Bool.and_eq_true_iff.mp h with ⟨h12, h3⟩
  rcases Bool.and_eq_true_iff.mp h12 with ⟨h1, h2⟩
  rw [matchState_mono hs h1, matchHour_mono hh h2, matchPrecip_mono hp h3]
  rfl

example :
    (update_dashboard scenarioDS none none none).map
      (fun r => (r.total_accidents, r.most_common_severity, r.busiest_hour_group))
      = .ok (3, some 2, some "Afternoon") := rfl

example :
    (update_dashboard scenarioDS none none none).map
      (fun r => (r.accidents_by_hour, r.accidents_by_state))
      = .ok ([("Night", 1), ("Afternoon", 2)], [("CA", 2), ("NY", 1)]) := rfl

example :
    update_dashboard scenarioDS (some ["CA"]) none none
      = .ok ((update_dashboard scenarioDS (some ["CA"]) none none).toOption.getD emptyAgg) := rfl

example :
    ((update_dashboard scenarioDS none (some ["Morning"]) none).toOption.getD
      emptyAgg).total_accidents = 0 := rfl

example :
    (update_dashboard scenarioDS (some ["NY"]) none none).map
      (fun r => (r.total_accidents, r.avg_precip)) = .ok (1, none) := rfl

example :
    update_dashboard noPrecipDS none none none
      = .error "KeyError: Precipitation_Bin" := rfl

example :
    (update_dashboard hourlessDS none none none).map
      (fun r => (r.total_accidents, r.busiest_hour_group.isSome)) = .ok (1, true) := rfl

/-- The concrete result of the scenario run filtered to State CA. -/
def c1res : AggResult :=
  (update_dashboard scenarioDS (some ["CA"]) none none).toOption.getD emptyAgg

/-- C1: whenever the filter-aggregate pipeline returns a result, its total
record count equals the number of prepared rows satisfying all active
per-dimension membership constraints (state, hour-group, textual
precipitation-bin), combined with logical AND; an absent dimension imposes
no constraint. -/
theorem claim_C1_total_count (ds : PreparedDataset) (ss hs ps : Option (List String))
    (r : AggResult) (h : update_dashboard ds ss hs ps = .ok r) :
    r.total_accidents = ds.rows.countP (fun row => rowMatches ss hs ps row) :=
  total_eq_countP h

/-- Witness for C1: the scenario dataset filtered to State CA. -/
theorem claim_C1_total_count_witness :
    update_dashboard scenarioDS (some ["CA"]) none none = .ok c1res
      ∧ c1res.total_accidents
        = scenarioDS.rows.countP (fun row => rowMatches (some ["CA"]) none none row) := by
  have h : update_dashboard scenarioDS (some ["CA"]) none none = .ok c1res := rfl
  exact ⟨h, claim_C1_total_count _ _ _ _ _ h⟩

/-- C2 counterexample: the scenario dataset filtered to Hour_Group Morning has
an empty filtered set (total 0), yet the mean-precipitation output is the NaN
missing marker, not 0 as the claim states. -/
theorem claim_C2_counterexample :
    (update_dashboard scenarioDS none (some ["Morning"]) none).map
        (fun r => (r.total_accidents, r.avg_precip)) = .ok (0, none)
      ∧ (none : Option ℚ) ≠ some 0 := ⟨rfl, by simp⟩

/-- C2 (amended): whenever the pipeline returns a result whose filtered set is
empty, the most-common-severity and busiest-hour-group outputs are the N/A
marker, the mean precipitation is the NaN missing marker (not 0), and the
severity distribution, both grouped-count tables, the top-states list and the
map subset are all empty. -/
theorem claim_C2_empty_degrade (ds : PreparedDataset) (ss hs ps : Option (List String))
    (r : AggResult) (h : update_dashboard ds ss hs ps = .ok r)
    (h0 : r.total_accidents = 0) :
    r.most_common_severity = none ∧ r.busiest_hour_group = none ∧
      r.avg_precip = none ∧ r.severity_counts = [] ∧ r.accidents_by_hour = [] ∧
      r.accidents_by_precip = [] ∧ r.accidents_by_state = [] ∧ r.map_rows = [] := by
  obtain ⟨rows, b, hf, hb, hp, hr⟩ := run_ok_elim h
  subst hr
  have hlen : rows.length = 0 := h0
  have hnil : rows = [] := List.length_eq_zero.mp hlen
  subst hnil
  refine ⟨?_, ?_, ?_, ?_, ?_, ?_, ?_, ?_⟩
  · simp [mkResult]
  · exact busiestCalc_total_zero hb rfl
  · simp [mkResult, hp, meanOpt]
  · simp [mkResult, sevDistCalc, countsOf, sortDesc]
  · simp [mkResult, groupCounts_nil]
  · simp [mkResult, groupCounts_nil]
  · simp [mkResult, stateCounts, sortDesc, sortStr]
  · rfl

/-- The concrete result of the scenario run filtered to Hour_Group Morning. -/
def c2res : AggResult :=
  (update_dashboard scenarioDS none (some ["Morning"]) none).toOption.getD emptyAgg

/-- Witness for C2: the scenario dataset filtered to Hour_Group Morning. -/
theorem claim_C2_empty_degrade_witness :
    (update_dashboard scenarioDS none (some ["Morning"]) none = .ok c2res
        ∧ c2res.total_accidents = 0)
      ∧ (c2res.most_common_severity = none ∧ c2res.busiest_hour_group = none ∧
          c2res.avg_precip = none ∧ c2res.severity_counts = [] ∧
          c2res.accidents_by_hour = [] ∧ c2res.accidents_by_precip = [] ∧
          c2res.accidents_by_state = [] ∧ c2res.map_rows = []) := by
  have h : update_dashboard scenarioDS none (some ["Morning"]) none = .ok c2res := rfl
  have h0 : c2res.total_accidents = 0 := rfl
  exact ⟨⟨h, h0⟩, claim_C2_empty_degrade _ _ _ _ _ h h0⟩

/-- C3: the claim (and the specification) require the pipeline to tolerate a
missing precipitation column, but the code reads the Precipitation_Bin
column unconditionally when grouping (line 137) and when the precipitation
filter is active (line 106), so every invocation on such a dataset raises a
KeyError instead of completing. -/
theorem claim_C3_missing_column_crash :
    update_dashboard noPrecipDS none none none = .error "KeyError: Precipitation_Bin"
      ∧ update_dashboard noPrecipDS none none (some ["None"])
          = .error "KeyError: Precipitation_Bin" := ⟨rfl, rfl⟩

/-- C4 counterexample: the scenario dataset filtered to State NY has one row
whose precipitation value is missing; the mean-precipitation output is the
NaN missing marker, not 0 as the claim states. -/
theorem claim_C4_counterexample :
    (update_dashboard scenarioDS (some ["NY"]) none none).map
        (fun r => (r.total_accidents, r.avg_precip)) = .ok (1, none)
      ∧ ((none : Option ℚ) = some 0 → False) := ⟨rfl, by simp⟩

/-- C4 (amended): whenever the pipeline returns a result, the
mean-precipitation output is the arithmetic mean of the non-missing
precipitation amounts over the rows satisfying the filter constraints, where
the mean of an empty collection of values is the NaN missing marker rather
than 0. -/
theorem claim_C4_mean_precip (ds : PreparedDataset) (ss hs ps : Option (List String))
    (r : AggResult) (h : update_dashboard ds ss hs ps = .ok r) :
    r.avg_precip
      = meanOpt ((ds.rows.filter (fun row => rowMatches ss hs ps row)).filterMap
          (fun row => row.precip)) := by
  obtain ⟨rows, b, hf, hb, hp, hr⟩ := run_ok_elim h
  subst hr
  have hrows := filterRows_ok hf
  simp [mkResult, hp, hrows]

/-- The concrete result of the scenario run with no filters. -/
def c4res : AggResult :=
  (update_dashboard scenarioDS none none none).toOption.getD emptyAgg

/-- Witness for C4: the scenario dataset with no filters. -/
theorem claim_C4_mean_precip_witness :
    update_dashboard scenarioDS none none none = .ok c4res
      ∧ c4res.avg_precip
        = meanOpt ((scenarioDS.rows.filter (fun row => rowMatches none none none row)).filterMap
            (fun row => row.precip)) := by
  have h : update_dashboard scenarioDS none none none = .ok c4res := rfl
  exact ⟨h, claim_C4_mean_precip _ _ _ _ _ h⟩

/-- C5 counterexample: a raw table without an `Hour` column and without the
precipitation column; preparation adds an `Hour` column and does not add
`Precipitation_Bin`, so the prepared columns are not the raw columns plus
exactly Hour_Group and Precipitation_Bin. -/
theorem claim_C5_counterexample :
    preparedColumns noPrecipRaw
      ≠ rawColumns noPrecipRaw ++ ["Hour_Group", "Precipitation_Bin"] := by decide

/-- C5 (amended): preparation keeps every row and every raw cell unchanged and
adds the derived columns: `Hour_Group` always, `Hour` exactly when the raw
table lacks an Hour column (holding the hour taken from `Start_Time`), and
`Precipitation_Bin` exactly when the precipitation column exists. -/
theorem claim_C5_prepare_frame (t : RawTable) :
    (prepare t).rows.length = t.rows.length
      ∧ (prepare t).rows.map (fun p => (p.state, p.city, p.severity, p.lat, p.lng, p.precip))
        = t.rows.map (fun r => (r.state, r.city, r.severity, r.lat, r.lng, r.precip))
      ∧ (prepare t).rows.map (fun p => p.hour)
        = t.rows.map (fun r => if t.hasHour then r.hourField else r.startHour)
      ∧ (prepare t).rows.map (fun p => p.hourGroup)
        = t.rows.map (fun r => hourCut (if t.hasHour then r.hourField else r.startHour))
      ∧ (prepare t).rows.map (fun p => p.precipBin)
        = t.rows.map (fun r => if t.hasPrecip then precipCut r.precip else none)
      ∧ preparedColumns t
        = rawColumns t ++ (if t.hasHour then [] else ["Hour"]) ++ ["Hour_Group"]
            ++ (if t.hasPrecip then ["Precipitation_Bin"] else []) := by
  refine ⟨?_, ?_, ?_, ?_, ?_, rfl⟩ <;> simp [prepare, Function.comp]

/-- Order-independent facts about the top-states table of line 142, valid for
any resolution of the unspecified equal-count order of `sort_values`: at most
ten entries, at most one entry per distinct state of the filtered set, and
counts non-increasing in list order.  The order of entries with equal counts
is not asserted anywhere: `sort_values` with the default sort kind leaves it
unspecified, so it is not a guarantee of the program. -/
theorem topStates_bounds (ds : PreparedDataset) (ss hs ps : Option (List String))
    (r : AggResult) (rows : List PRow)
    (h : update_dashboard ds ss hs ps = .ok r)
    (hf : filterRows ds ss hs ps = .ok rows) :
    r.accidents_by_state.length ≤ 10
      ∧ r.accidents_by_state.length ≤ (rows.map (fun row => row.state)).dedup.length
      ∧ r.accidents_by_state.Chain' (fun a b => b.2 ≤ a.2) := by
  obtain ⟨rows2, b, hf2, hb, hp, hr⟩ := run_ok_elim h
  have hre : rows2 = rows := Except.ok.inj (hf2.symm.trans hf)
  subst hre
  subst hr
  have hstate : (mkResult ds rows2 b).accidents_by_state
      = (sortDesc (stateCounts rows2)).take 10 := rfl
  refine ⟨?_, ?_, ?_⟩
  · rw [hstate, List.length_take]
    exact min_le_left _ _
  · rw [hstate, List.length_take]
    have h1 : (sortDesc (stateCounts rows2)).length
        = (rows2.map (fun row => row.state)).dedup.length := by
      rw [length_sortDesc]
      simp [stateCounts, length_sortStr]
    exact le_trans (min_le_right _ _) (le_of_eq h1)
  · rw [hstate]
    have hpw := sorted_sortDesc (stateCounts rows2)
    exact List.Pairwise.chain' (hpw.sublist (List.take_sublist _ _))

/-- C7: whenever the pipeline returns a result, every group listed in the
counts-by-Hour_Group table and in the counts-by-Precipitation_Bin table has a
count of at least 1; empty groups are omitted rather than zero-filled. -/
theorem claim_C7_group_counts_positive (ds : PreparedDataset)
    (ss hs ps : Option (List String)) (r : AggResult)
    (h : update_dashboard ds ss hs ps = .ok r) :
    (∀ q ∈ r.accidents_by_hour, 1 ≤ q.2)
      ∧ ∀ q ∈ r.accidents_by_precip, 1 ≤ q.2 := by
  obtain ⟨rows, b, hf, hb, hp, hr⟩ := run_ok_elim h
  subst hr
  exact ⟨fun q hq => mem_groupCounts_pos hq, fun q hq => mem_groupCounts_pos hq⟩

/-- The concrete result of the scenario run filtered to hour groups Night and
Afternoon, for C7. -/
def c7res : AggResult :=
  (update_dashboard scenarioDS none (some ["Night", "Afternoon"]) none).toOption.getD
    emptyAgg

/-- Witness for C7: the scenario dataset filtered to Night and Afternoon. -/
theorem claim_C7_group_counts_positive_witness :
    update_dashboard scenarioDS none (some ["Night", "Afternoon"]) none = .ok c7res
      ∧ ((∀ q ∈ c7res.accidents_by_hour, 1 ≤ q.2)
        ∧ ∀ q ∈ c7res.accidents_by_precip, 1 ≤ q.2) := by
  have h : update_dashboard scenarioDS none (some ["Night", "Afternoon"]) none
      = .ok c7res := rfl
  exact ⟨h, claim_C7_group_counts_positive _ _ _ _ _ h⟩

/-- C8: filtering is monotone.  Strengthening a selection, dimension by
dimension (adding a constraint to an absent dimension, or shrinking an active
set of values), never increases the returned total count. -/
theorem claim_C8_monotone (ds : PreparedDataset)
    (ss₁ hs₁ ps₁ ss₂ hs₂ ps₂ : Option (List String)) (r₁ r₂ : AggResult)
    (hstr₁ : strongerDim ss₂ ss₁) (hstr₂ : strongerDim hs₂ hs₁)
    (hstr₃ : strongerDim ps₂ ps₁)
    (h₁ : update_dashboard ds ss₁ hs₁ ps₁ = .ok r₁)
    (h₂ : update_dashboard ds ss₂ hs₂ ps₂ = .ok r₂) :
    r₂.total_accidents ≤ r₁.total_accidents := by
  rw [total_eq_countP h₁, total_eq_countP h₂]
  exact countP_mono_of_imp _ (fun x _ hx => rowMatches_mono hstr₁ hstr₂ hstr₃ hx)

/-- The unfiltered scenario result, for C8. -/
def c8resA : AggResult :=
  (update_dashboard scenarioDS none none none).toOption.getD emptyAgg

/-- The scenario result with the strengthened selection State CA, for C8. -/
def c8resB : AggResult :=
  (update_dashboard scenarioDS (some ["CA"]) none none).toOption.getD emptyAgg

/-- Witness for C8: adding the constraint State CA to the empty selection. -/
theorem claim_C8_monotone_witness :
    (strongerDim (some ["CA"]) none ∧ strongerDim none none
        ∧ update_dashboard scenarioDS none none none = .ok c8resA
        ∧ update_dashboard scenarioDS (some ["CA"]) none none = .ok c8resB)
      ∧ c8resB.total_accidents ≤ c8resA.total_accidents := by
  have hd1 : strongerDim (some ["CA"]) none := by
    intro hcontra
    exact absurd hcontra (by decide)
  have hd2 : strongerDim none none := by
    intro hcontra
    exact absurd hcontra (by decide)
  have h1 : update_dashboard scenarioDS none none none = .ok c8resA := rfl
  have h2 : update_dashboard scenarioDS (some ["CA"]) none none = .ok c8resB := rfl
  exact ⟨⟨hd1, hd2, h1, h2⟩,
    claim_C8_monotone _ _ _ _ _ _ _ _ _ hd1 hd2 hd2 h1 h2⟩

/-- C9 counterexample: a dataset whose single row has an undefined Hour_Group;
the filtered set is non-empty and every Hour_Group is undefined, yet the
pipeline completes with a defined busiest-hour-group output, so the idxmax
step does have a result and its error branch is not taken. -/
theorem claim_C9_counterexample :
    (update_dashboard hourlessDS none none none).map
      (fun r => (r.total_accidents, r.busiest_hour_group.isSome)) = .ok (1, true) := rfl

/-- C9 (amended): the busiest-hour-group computation can never fail:
value_counts on the categorical Hour_Group column keeps all four bucket
labels (zero counts included), so idxmax always has a result; in particular a
non-empty filtered set in which every row's Hour_Group is undefined still
yields a defined bucket label rather than reaching the error branch. -/
theorem claim_C9_idxmax_total :
    (∀ rows : List PRow, ∃ b, busiestCalc rows = .ok b)
      ∧ ∀ rows : List PRow, rows ≠ [] → (∀ x ∈ rows, x.hourGroup = none) →
          ∃ g, busiestCalc rows = .ok (some g) := by
  constructor
  · intro rows
    by_cases h : 0 < rows.length
    · obtain ⟨g, hg⟩ := idxmax_of_ne_nil (hourValueCounts_ne_nil rows)
      exact ⟨some g, by simp [busiestCalc, h, hg]⟩
    · exact ⟨none, by simp [busiestCalc, h]⟩
  · intro rows hne _
    have h : 0 < rows.length := List.length_pos.mpr hne
    obtain ⟨g, hg⟩ := idxmax_of_ne_nil (hourValueCounts_ne_nil rows)
    exact ⟨g, by simp [busiestCalc, h, hg]⟩

/-- Witness for C9: the hourless dataset, one row with undefined Hour_Group. -/
theorem claim_C9_idxmax_total_witness :
    (hourlessDS.rows ≠ [] ∧ ∀ x ∈ hourlessDS.rows, x.hourGroup = none)
      ∧ ∃ g, busiestCalc hourlessDS.rows = .ok (some g) := by
  have h1 : hourlessDS.rows ≠ [] := by decide
  have h2 : ∀ x ∈ hourlessDS.rows, x.hourGroup = none := by decide
  exact ⟨⟨h1, h2⟩, claim_C9_idxmax_total.2 _ h1 h2⟩

/-- C10: an empty selected set on any dimension is treated identically to an
absent selection: the pipeline result is unchanged dimension by dimension. -/
theorem claim_C10_empty_selection (ds : PreparedDataset)
    (ss hs ps : Option (List String)) :
    update_dashboard ds (some []) hs ps = update_dashboard ds none hs ps
      ∧ update_dashboard ds ss (some []) ps = update_dashboard ds ss none ps
      ∧ update_dashboard ds ss hs (some []) = update_dashboard ds ss hs none :=
  ⟨rfl, rfl, rfl⟩
